import Mathlib

/-!
Verification of the priority-ordered multi-agent deployment orchestrator
(`deploy/critical-workflow-orchestrator.py`) and the multi-factor confidence
scorer (`deploy/enhanced-agents.py`) of the candlefish-ai repository.

The Python code is shallowly embedded: dataclasses become structures, Python
dicts become insertion-ordered association lists, wall-clock instants become
abstract ticks (`Nat`), float arithmetic becomes exact rational arithmetic
(`ℚ`), and raised exceptions become `Except` values.  Agent behaviour, which
the orchestrator treats through the `BaseAgent` contract, is a parameter of
the run-loop embedding.
-/

/-- Embedding of the Python `ValidationStatus` enum. -/
inductive ValidationStatus where
  | pending
  | in_progress
  | passed
  | failed
  | rollback
  deriving DecidableEq, Repr

/-- Lookup in an insertion-ordered association list, embedding `dict.get`:
the first binding of the key wins (keys are unique under `dictInsert`). -/
def dictGet {α : Type} : List (String × α) → String → Option α
  | [], _ => none
  | (k, v) :: rest, key => if key = k then some v else dictGet rest key

/-- Assignment `d[key] = v` on an insertion-ordered association list: replaces
the value in place when the key is present and appends otherwise, which is
exactly the Python dict update semantics. -/
def dictInsert {α : Type} : List (String × α) → String → α → List (String × α)
  | [], key, v => [(key, v)]
  | (k, w) :: rest, key, v =>
    if key = k then (key, v) :: rest else (k, w) :: dictInsert rest key v

/-- Embedding of the `DeploymentConfig` dataclass. -/
structure DeploymentConfig where
  agents : List String
  priority_chain : List (String × Nat)
  validation_mode : String
  rollback_enabled : Bool
  max_retries : Nat
  timeout_seconds : Nat
  parallel_execution : Bool
  checkpoints : List String
  deriving DecidableEq, Repr

/-- Default priority chain installed by `DeploymentConfig.__post_init__` when
the supplied chain is empty. -/
def defaultPriorityChain : List (String × Nat) :=
  [("security", 1), ("performance", 2), ("testing", 3), ("architecture", 4)]

/-- Embedding of `DeploymentConfig` construction together with its
`__post_init__` hook: construction raises `ValueError` ("At least one agent
must be specified") when `agents` is empty, otherwise succeeds, installing the
default priority chain when the supplied one is empty.  No other field is
validated by `__post_init__`; the remaining dataclass fields keep their Python
default values. -/
def mkDeploymentConfig (agents : List String) (priority_chain : List (String × Nat))
    (validation_mode : String) (rollback_enabled : Bool) : Except String DeploymentConfig :=
  if agents = [] then
    .error "At least one agent must be specified"
  else
    .ok { agents := agents
          priority_chain := if priority_chain = [] then defaultPriorityChain else priority_chain
          validation_mode := validation_mode
          rollback_enabled := rollback_enabled
          max_retries := 3
          timeout_seconds := 300
          parallel_execution := false
          checkpoints := [] }

/-- Truth of successful `Except` construction (model of "no exception was
raised"). -/
def exceptOk {ε α : Type} : Except ε α → Bool
  | .ok _ => true
  | .error _ => false

/-- Embedding of the `DeploymentResult` dataclass; `μ` is the type of the
agent's metrics map and `ρ` the type of its rollback snapshot.  Time stamps
are abstract ticks. -/
structure DeploymentResult (μ ρ : Type) where
  agent : String
  status : ValidationStatus
  start_time : Nat
  end_time : Option Nat
  metrics : μ
  errors : List String
  warnings : List String
  rollback_data : Option ρ
  deriving DecidableEq, Repr

/-!
Confidence scorer (`enhanced-agents.py`, class `ConfidenceScorer`).
-/

/-- Embedding of `ConfidenceScorer._assess_timing`.  The Python code reads the
local clock; here the weekday (Monday = 0 … Sunday = 6) and the hour (0–23)
are explicit arguments.  The `elif` chain is reproduced exactly, in source
order. -/
def assessTiming (weekday hour : Nat) : ℚ :=
  if (weekday = 1 ∨ weekday = 2 ∨ weekday = 3) ∧ 10 ≤ hour ∧ hour ≤ 15 then 1
  else if weekday < 5 ∧ 9 ≤ hour ∧ hour ≤ 17 then (8 : ℚ) / 10
  else if weekday = 4 ∧ 15 ≤ hour then (4 : ℚ) / 10
  else if 5 ≤ weekday then (3 : ℚ) / 10
  else (5 : ℚ) / 10

/-- Deployment-context snapshot consumed by `ConfidenceScorer`: the Python
`deployment_context` dict, restricted to the keys the scorer reads.  A `none`
field models an absent key (so `dict.get` falls back to its default). -/
structure ConfidenceContext where
  test_pass_rate : Option ℚ
  recent_success_rate : Option ℚ
  linting_passed : Option Bool
  type_checking_passed : Option Bool
  code_review_approved : Option Bool
  rollback_enabled : Option Bool
  deriving DecidableEq, Repr

/-- Embedding of `ConfidenceScorer._assess_code_quality`. -/
def assessCodeQuality (c : ConfidenceContext) : ℚ :=
  let base : ℚ := (85 : ℚ) / 100
  let base := if c.linting_passed.getD true then base + (5 : ℚ) / 100 else base
  let base := if c.type_checking_passed.getD true then base + (5 : ℚ) / 100 else base
  let base := if c.code_review_approved.getD true then base + (5 : ℚ) / 100 else base
  min base 1

/-- Embedding of the weight table set up in `ConfidenceScorer.__init__`. -/
def confidenceWeights : List (String × ℚ) :=
  [("code_quality", (20 : ℚ) / 100),
   ("test_coverage", (20 : ℚ) / 100),
   ("historical_success", (15 : ℚ) / 100),
   ("timing_appropriateness", (10 : ℚ) / 100),
   ("team_readiness", (10 : ℚ) / 100),
   ("system_health", (10 : ℚ) / 100),
   ("dependency_stability", (10 : ℚ) / 100),
   ("rollback_capability", (5 : ℚ) / 100)]

/-- Embedding of `ConfidenceScorer.calculate_confidence`: builds the factor
map in source order and returns the weighted sum together with the factors.
The weekday/hour arguments feed `_assess_timing` (the only clock-dependent
factor). -/
def calculateConfidence (c : ConfidenceContext) (weekday hour : Nat) :
    ℚ × List (String × ℚ) :=
  let factors : List (String × ℚ) :=
    [("code_quality", assessCodeQuality c),
     ("test_coverage", c.test_pass_rate.getD ((95 : ℚ) / 100)),
     ("historical_success", c.recent_success_rate.getD ((95 : ℚ) / 100)),
     ("timing_appropriateness", assessTiming weekday hour),
     ("team_readiness", (9 : ℚ) / 10),
     ("system_health", (95 : ℚ) / 100),
     ("dependency_stability", (95 : ℚ) / 100),
     ("rollback_capability", if c.rollback_enabled.getD false then 1 else (5 : ℚ) / 10)]
  let overall := (factors.map (fun f => f.2 * ((dictGet confidenceWeights f.1).getD 0))).sum
  (overall, factors)

/-!
Claims C3–C6.
-/

/-- C3: at Friday 16:00 (weekday 4, hour 16) the timing-appropriateness factor
computed by `_assess_timing` is 0.8, not the 0.4 required by the specification
table: the weekday-business-hours branch precedes, and therefore shadows, the
Friday-afternoon branch for hours 15–17, contradicting the code's own comment
that Friday afternoon is a poor deployment time. -/
theorem assessTiming_friday16_C3 : assessTiming 4 16 = (8 : ℚ) / 10 := by
  norm_num [assessTiming]

/-- Context exercising the C4 counterexample: the caller stores an
out-of-range `test_pass_rate` in the deployment context. -/
def confidenceBadContext : ConfidenceContext :=
  { test_pass_rate := some 2
    recent_success_rate := none
    linting_passed := none
    type_checking_passed := none
    code_review_approved := none
    rollback_enabled := none }

/-- Closed form of the weighted sum computed by `calculate_confidence`,
obtained by unfolding the factor list against the weight table. -/
theorem calculateConfidence_overall (c : ConfidenceContext) (weekday hour : Nat) :
    (calculateConfidence c weekday hour).1
      = assessCodeQuality c * ((20 : ℚ) / 100)
        + (c.test_pass_rate.getD ((95 : ℚ) / 100) * ((20 : ℚ) / 100)
        + (c.recent_success_rate.getD ((95 : ℚ) / 100) * ((15 : ℚ) / 100)
        + (assessTiming weekday hour * ((10 : ℚ) / 100)
        + ((9 : ℚ) / 10 * ((10 : ℚ) / 100)
        + ((95 : ℚ) / 100 * ((10 : ℚ) / 100)
        + ((95 : ℚ) / 100 * ((10 : ℚ) / 100)
        + ((if c.rollback_enabled.getD false then 1 else (5 : ℚ) / 10) * ((5 : ℚ) / 100)
        + 0))))))) := rfl

/-- C4 counterexample: `calculate_confidence` performs no clamping, so a
deployment context carrying `test_pass_rate = 2` (evaluated on a Wednesday at
noon) yields an overall confidence strictly greater than 1, refuting the claim
that the result lies in [0,1] for every context map. -/
theorem calculateConfidence_C4_counterexample :
    1 < (calculateConfidence confidenceBadContext 2 12).1 := by
  rw [calculateConfidence_overall]
  norm_num [confidenceBadContext, assessCodeQuality, assessTiming]

/-- Bounds for `assessCodeQuality`: the factor always lies in [0,1]. -/
theorem assessCodeQuality_bounds (c : ConfidenceContext) :
    0 ≤ assessCodeQuality c ∧ assessCodeQuality c ≤ 1 := by
  unfold assessCodeQuality
  constructor
  · split <;> split <;> split <;>
      simp [le_min_iff] <;> norm_num
  · exact min_le_right _ _

/-- Bounds for `assessTiming`: the factor always lies in [0,1]. -/
theorem assessTiming_bounds (weekday hour : Nat) :
    0 ≤ assessTiming weekday hour ∧ assessTiming weekday hour ≤ 1 := by
  unfold assessTiming
  split <;> try norm_num
  split <;> try norm_num
  split <;> try norm_num
  split <;> norm_num

/-- C4 (amended): `calculate_confidence` returns exactly the weighted sum of
the eight factors under the fixed weight table, and this overall confidence
lies in [0,1] provided the two factor values read unclamped from the context
(`test_pass_rate` and `recent_success_rate`) lie in [0,1]; all other factors
are intrinsically within [0,1]. -/
theorem calculateConfidence_C4 (c : ConfidenceContext) (weekday hour : Nat)
    (h1 : 0 ≤ c.test_pass_rate.getD ((95 : ℚ) / 100))
    (h2 : c.test_pass_rate.getD ((95 : ℚ) / 100) ≤ 1)
    (h3 : 0 ≤ c.recent_success_rate.getD ((95 : ℚ) / 100))
    (h4 : c.recent_success_rate.getD ((95 : ℚ) / 100) ≤ 1) :
    (calculateConfidence c weekday hour).1
        = ((calculateConfidence c weekday hour).2.map
            (fun f => f.2 * ((dictGet confidenceWeights f.1).getD 0))).sum
      ∧ 0 ≤ (calculateConfidence c weekday hour).1
      ∧ (calculateConfidence c weekday hour).1 ≤ 1 := by
  refine ⟨rfl, ?_, ?_⟩ <;>
  · have hcq := assessCodeQuality_bounds c
    have ht := assessTiming_bounds weekday hour
    rw [calculateConfidence_overall]
    rcases Bool.eq_false_or_eq_true (c.rollback_enabled.getD false) with hrb | hrb <;>
      rw [hrb] <;> simp only [if_true, if_false, Bool.false_eq_true] <;>
      linarith [hcq.1, hcq.2, ht.1, ht.2, h1, h2, h3, h4]

/-- C4 witness: the amended theorem instantiated at the empty context
(every key absent) on a Wednesday at noon. -/
theorem calculateConfidence_C4_witness :
    (calculateConfidence ⟨none, none, none, none, none, none⟩ 2 12).1
        = ((calculateConfidence ⟨none, none, none, none, none, none⟩ 2 12).2.map
            (fun f => f.2 * ((dictGet confidenceWeights f.1).getD 0))).sum
      ∧ 0 ≤ (calculateConfidence ⟨none, none, none, none, none, none⟩ 2 12).1
      ∧ (calculateConfidence ⟨none, none, none, none, none, none⟩ 2 12).1 ≤ 1 :=
  calculateConfidence_C4 ⟨none, none, none, none, none, none⟩ 2 12
    (by norm_num) (by norm_num) (by norm_num) (by norm_num)

/-- C5: constructing a `DeploymentConfig` raises the precondition error
"At least one agent must be specified" exactly when the agents list is empty;
for every non-empty agents list construction succeeds on this ground. -/
theorem deploymentConfig_empty_agents_C5 (agents : List String)
    (pc : List (String × Nat)) (vm : String) (rb : Bool) :
    mkDeploymentConfig agents pc vm rb = .error "At least one agent must be specified"
      ↔ agents = [] := by
  unfold mkDeploymentConfig
  split <;> simp_all

/-- C6 counterexample: constructing a `DeploymentConfig` whose validation mode
is "bogus" — not one of automated, manual, hybrid — succeeds, refuting the
claim that construction fails for unknown validation modes:
`__post_init__` never inspects `validation_mode`. -/
theorem deploymentConfig_mode_C6_counterexample :
    ("bogus" ∉ ["automated", "manual", "hybrid"])
      ∧ exceptOk (mkDeploymentConfig ["security-auditor"] [("security", 1)] "bogus" true)
          = true := by
  constructor
  · decide
  · rfl

/-- C6 (amended): for every validation mode outside {automated, manual,
hybrid} and every non-empty agents list, `DeploymentConfig` construction
nevertheless succeeds — the mode is not checked at configuration-construction
time (only the CLI argument parser restricts the choices). -/
theorem deploymentConfig_mode_C6 (agents : List String) (pc : List (String × Nat))
    (vm : String) (rb : Bool) (hne : agents ≠ [])
    (_hvm : vm ∉ ["automated", "manual", "hybrid"]) :
    exceptOk (mkDeploymentConfig agents pc vm rb) = true := by
  unfold mkDeploymentConfig
  rw [if_neg hne]
  rfl

/-- C6 witness: the amended theorem at the concrete mode "experimental". -/
theorem deploymentConfig_mode_C6_witness :
    exceptOk (mkDeploymentConfig ["security-auditor"] [] "experimental" false) = true :=
  deploymentConfig_mode_C6 ["security-auditor"] [] "experimental" false
    (by decide) (by decide)

/-!
Checkpoint recorder (`CriticalWorkflowOrchestrator._create_checkpoint`).
-/

/-- Embedding of the checkpoint record created by `_create_checkpoint`. -/
structure Checkpoint where
  timestamp : Nat
  agent : String
  context_hash : String
  state : String
  deriving DecidableEq, Repr

/-- Deterministic serialization of a context map, embedding
`json.dumps(context, sort_keys=True, default=str)`: keys are emitted in
ascending order, each followed by the value it maps to.  Context values are
taken already in serialized (string) form. -/
def serializeContext (ctx : List (String × String)) : String :=
  String.join (((ctx.map Prod.fst).insertionSort (· ≤ ·)).map
    (fun k => k ++ ":" ++ ((dictGet ctx k).getD "") ++ ";"))

/-- Content hash of the serialized context.  The hash function itself (SHA-256
in the source) is an arbitrary parameter: the claims about the checkpoint
concern only determinism of the hash, which holds for any function of the
deterministic serialization. -/
def contextHash (h : String → String) (ctx : List (String × String)) : String :=
  h (serializeContext ctx)

/-- Embedding of `CriticalWorkflowOrchestrator._create_checkpoint`. -/
def createCheckpoint (h : String → String) (t : Nat) (agentName : String)
    (ctx : List (String × String)) : Checkpoint :=
  { timestamp := t
    agent := agentName
    context_hash := contextHash h ctx
    state := "pre_execution" }

/-- Lookup in an association list is invariant under permutation when the keys
are distinct. -/
theorem dictGet_eq_of_perm {α : Type} {l1 l2 : List (String × α)} (p : l1.Perm l2) :
    (l1.map Prod.fst).Nodup → ∀ k, dictGet l1 k = dictGet l2 k := by
  induction p with
  | nil => intro _ _; rfl
  | cons x t ih =>
    obtain ⟨xk, xv⟩ := x
    intro nd k
    simp only [List.map_cons, List.nodup_cons] at nd
    by_cases hk : k = xk
    · simp [dictGet, hk]
    · simp only [dictGet, if_neg hk]
      exact ih nd.2 k
  | swap x y l =>
    obtain ⟨xk, xv⟩ := x
    obtain ⟨yk, yv⟩ := y
    intro nd k
    simp only [List.map_cons, List.nodup_cons, List.mem_cons] at nd
    have hyx : yk ≠ xk := fun hcontra => nd.1 (Or.inl hcontra)
    by_cases h1 : k = yk
    · by_cases h2 : k = xk
      · exact absurd (h1.symm.trans h2) hyx
      · simp [dictGet, h1, h2, hyx, Ne.symm hyx]
    · by_cases h2 : k = xk
      · simp [dictGet, h1, h2, hyx, Ne.symm hyx]
      · simp [dictGet, h1, h2]
  | trans p1 p2 ih1 ih2 =>
    intro nd k
    exact (ih1 nd k).trans (ih2 ((p1.map Prod.fst).nodup_iff.mp nd) k)

/-- C9: the checkpoint content hash is a deterministic function of the
context's key-value contents: two contexts that are equal as maps (the same
bindings, in any insertion order, with distinct keys) receive identical
`context_hash` fields, because the serialization orders keys canonically. -/
theorem checkpoint_hash_deterministic_C9 (h : String → String) (t : Nat)
    (agentName : String) (ctx1 ctx2 : List (String × String)) (hp : ctx1.Perm ctx2)
    (hnd : (ctx1.map Prod.fst).Nodup) :
    (createCheckpoint h t agentName ctx1).context_hash
      = (createCheckpoint h t agentName ctx2).context_hash := by
  have hkeys : (ctx1.map Prod.fst).insertionSort (· ≤ ·)
      = (ctx2.map Prod.fst).insertionSort (· ≤ ·) :=
    List.eq_of_perm_of_sorted
      ((List.perm_insertionSort _ _).trans
        ((hp.map Prod.fst).trans (List.perm_insertionSort _ _).symm))
      (List.sorted_insertionSort _ _) (List.sorted_insertionSort _ _)
  have hfun : (fun k => k ++ ":" ++ ((dictGet ctx1 k).getD "") ++ ";")
      = (fun k => k ++ ":" ++ ((dictGet ctx2 k).getD "") ++ ";") := by
    funext k
    rw [dictGet_eq_of_perm hp hnd k]
  unfold createCheckpoint contextHash serializeContext
  rw [hkeys, hfun]

/-- C9 witness: the determinism theorem at a concrete two-entry context and
its reversal, with the identity as hash function. -/
theorem checkpoint_hash_deterministic_C9_witness :
    (createCheckpoint (fun s => s) 0 "security-auditor"
        [("a", "1"), ("b", "2")]).context_hash
      = (createCheckpoint (fun s => s) 0 "security-auditor"
        [("b", "2"), ("a", "1")]).context_hash :=
  checkpoint_hash_deterministic_C9 (fun s => s) 0 "security-auditor"
    [("a", "1"), ("b", "2")] [("b", "2"), ("a", "1")]
    (List.Perm.swap ("b", "2") ("a", "1") []) (by decide)

/-!
Concrete agents (`SecurityAuditor.execute`, `TestAutomator.execute`).

Both methods mutate a `DeploymentResult` inside `try/except/finally`: any
exception raised while the sub-checks run is caught, the status is forced to
`FAILED` with the fault text appended to `errors`, and `finally` always stamps
`end_time`.  The bodies are embedded in the `Except` monad, with the
individual sub-check runner (which in the source sleeps, shells out, or draws
random numbers) supplied as a fault-injectable parameter; a runner returning
`.error msg` models a raised exception with text `msg`.
-/

/-- Embedding of the per-check result dict built by
`SecurityAuditor._run_security_check` (the `details` list and `status` string
carry no control flow and are elided). -/
structure CheckResult where
  critical_issues : Nat
  warnings : Nat
  deriving DecidableEq, Repr

/-- The fixed check list from `SecurityAuditor.__init__`. -/
def securityChecks : List String :=
  ["vulnerability_scan", "dependency_audit", "secrets_scan", "permission_audit",
   "ssl_validation", "authentication_check", "authorization_review",
   "input_validation", "encryption_verification"]

/-- Metrics map of the security auditor: check name to check result. -/
abbrev SecMetrics := List (String × CheckResult)

/-- The in-progress result created at the top of `SecurityAuditor.execute`.
The security auditor never registers rollback data, so its rollback-snapshot
type is trivial. -/
def securityInitResult (t0 : Nat) : DeploymentResult SecMetrics Unit :=
  { agent := "security-auditor"
    status := .in_progress
    start_time := t0
    end_time := none
    metrics := []
    errors := []
    warnings := []
    rollback_data := none }

/-- The `for check in self.security_checks` loop of `SecurityAuditor.execute`:
records each check's result in the metrics map, appends an error and breaks
with status `FAILED` on the first critical finding, accumulates warnings
otherwise.  A raised exception aborts the loop with the partially mutated
result. -/
def securityLoop (runCheck : String → Except String CheckResult) :
    List String → DeploymentResult SecMetrics Unit →
    Except (String × DeploymentResult SecMetrics Unit) (DeploymentResult SecMetrics Unit)
  | [], r => .ok r
  | c :: rest, r =>
    match runCheck c with
    | .error e => .error (e, r)
    | .ok cr =>
      let r := { r with metrics := dictInsert r.metrics c cr }
      if 0 < cr.critical_issues then
        .ok { r with
              errors := r.errors
                ++ [c ++ ": " ++ toString cr.critical_issues ++ " critical issues found"]
              status := .failed }
      else
        let r :=
          if 0 < cr.warnings then
            { r with warnings := r.warnings ++ [c ++ ": " ++ toString cr.warnings ++ " warnings"] }
          else r
        securityLoop runCheck rest r

/-- Embedding of `SecurityAuditor.execute`: run the check loop inside
`try/except/finally`.  On normal completion a non-failed status becomes
`PASSED`; a caught exception forces `FAILED` and appends the fault text;
`finally` stamps `end_time` on every path. -/
def securityAuditorExecute (runCheck : String → Except String CheckResult)
    (t0 t1 : Nat) : DeploymentResult SecMetrics Unit :=
  match securityLoop runCheck securityChecks (securityInitResult t0) with
  | .ok r =>
    let r := if r.status ≠ .failed then { r with status := .passed } else r
    { r with end_time := some t1 }
  | .error (e, r) =>
    { r with status := .failed, errors := r.errors ++ [e], end_time := some t1 }

/-- Embedding of the per-suite result dict returned by
`TestAutomator._run_test_suite` (the constant `skipped` and the simulated
`duration_seconds` carry no control flow and are elided). -/
structure SuiteResult where
  total : Nat
  passed : Nat
  failed : Nat
  deriving DecidableEq, Repr

/-- The fixed suite list from `TestAutomator.__init__`. -/
def testSuites : List String :=
  ["unit_tests", "integration_tests", "api_tests", "load_tests",
   "security_tests", "regression_tests", "smoke_tests", "e2e_tests"]

/-- Metrics entries of the test automator: per-suite results plus the final
aggregate entry stored under the key "overall". -/
inductive TestMetric where
  | suite (sr : SuiteResult)
  | overall (total passed failed : Nat) (pass_rate : ℚ)
  deriving DecidableEq, Repr

/-- Metrics map of the test automator. -/
abbrev TestMetrics := List (String × TestMetric)

/-- The in-progress result created at the top of `TestAutomator.execute`. -/
def testInitResult (t0 : Nat) : DeploymentResult TestMetrics Unit :=
  { agent := "test-automator"
    status := .in_progress
    start_time := t0
    end_time := none
    metrics := []
    errors := []
    warnings := []
    rollback_data := none }

/-- The `for suite in self.test_suites` loop of `TestAutomator.execute`:
records each suite result, accumulates the total/passed/failed counters, and
warns on suites with failures.  A raised exception aborts the loop with the
partially mutated result. -/
def testLoop (runSuite : String → Except String SuiteResult) :
    List String → DeploymentResult TestMetrics Unit → Nat → Nat → Nat →
    Except (String × DeploymentResult TestMetrics Unit)
      (DeploymentResult TestMetrics Unit × Nat × Nat × Nat)
  | [], r, t, p, f => .ok (r, t, p, f)
  | s :: rest, r, t, p, f =>
    match runSuite s with
    | .error e => .error (e, r)
    | .ok sr =>
      let r := { r with metrics := dictInsert r.metrics s (.suite sr) }
      let r :=
        if 0 < sr.failed then
          { r with warnings := r.warnings ++ [s ++ ": " ++ toString sr.failed ++ " tests failed"] }
        else r
      testLoop runSuite rest r (t + sr.total) (p + sr.passed) (f + sr.failed)

/-- Embedding of `TestAutomator.execute`: run the suite loop inside
`try/except/finally`, then derive the overall pass rate and the terminal
status (PASSED at ≥ 95%, PASSED with a warning at ≥ 80%, FAILED below). -/
def testAutomatorExecute (runSuite : String → Except String SuiteResult)
    (t0 t1 : Nat) : DeploymentResult TestMetrics Unit :=
  match testLoop runSuite testSuites (testInitResult t0) 0 0 0 with
  | .error (e, r) =>
    { r with status := .failed, errors := r.errors ++ [e], end_time := some t1 }
  | .ok (r, t, p, f) =>
    let pass_rate : ℚ := if 0 < t then (p : ℚ) / (t : ℚ) * 100 else 0
    let r := { r with metrics := dictInsert r.metrics "overall" (.overall t p f pass_rate) }
    let r :=
      if 95 ≤ pass_rate then { r with status := .passed }
      else if 80 ≤ pass_rate then
        { r with status := .passed
                 warnings := r.warnings
                   ++ ["Testing passed with warnings: " ++ toString pass_rate ++ "% success rate"] }
      else
        { r with status := .failed
                 errors := r.errors ++ ["Testing failed: " ++ toString pass_rate ++ "% success rate"] }
    { r with end_time := some t1 }

/-- C8: whenever an internal fault (exception) is raised while a concrete
agent's `execute` body runs — modelled as the embedded check/suite loop
stopping with `.error` — the call still returns a `DeploymentResult` whose
status is `FAILED`, whose errors list contains the fault message, and whose
`end_time` is stamped; shown for both cited agents, `SecurityAuditor` and
`TestAutomator`. -/
theorem agent_fault_handling_C8 (runCheck : String → Except String CheckResult)
    (runSuite : String → Except String SuiteResult) (t0 t1 : Nat)
    (m1 : String) (s1 : DeploymentResult SecMetrics Unit)
    (m2 : String) (s2 : DeploymentResult TestMetrics Unit)
    (h1 : securityLoop runCheck securityChecks (securityInitResult t0) = .error (m1, s1))
    (h2 : testLoop runSuite testSuites (testInitResult t0) 0 0 0 = .error (m2, s2)) :
    ((securityAuditorExecute runCheck t0 t1).status = .failed
      ∧ m1 ∈ (securityAuditorExecute runCheck t0 t1).errors
      ∧ (securityAuditorExecute runCheck t0 t1).end_time = some t1)
    ∧ ((testAutomatorExecute runSuite t0 t1).status = .failed
      ∧ m2 ∈ (testAutomatorExecute runSuite t0 t1).errors
      ∧ (testAutomatorExecute runSuite t0 t1).end_time = some t1) := by
  unfold securityAuditorExecute testAutomatorExecute
  rw [h1, h2]
  simp

/-- C8 witness: both loop runners raise immediately (on the first check and
the first suite), and the theorem yields the converted `FAILED` results. -/
theorem agent_fault_handling_C8_witness :
    ((securityAuditorExecute (fun _ => .error "boom") 0 1).status = .failed
      ∧ "boom" ∈ (securityAuditorExecute (fun _ => .error "boom") 0 1).errors
      ∧ (securityAuditorExecute (fun _ => .error "boom") 0 1).end_time = some 1)
    ∧ ((testAutomatorExecute (fun _ => .error "crash") 0 1).status = .failed
      ∧ "crash" ∈ (testAutomatorExecute (fun _ => .error "crash") 0 1).errors
      ∧ (testAutomatorExecute (fun _ => .error "crash") 0 1).end_time = some 1) :=
  agent_fault_handling_C8 (fun _ => .error "boom") (fun _ => .error "crash") 0 1
    "boom" (securityInitResult 0) "crash" (testInitResult 0) rfl rfl

/-!
Orchestrator (`CriticalWorkflowOrchestrator`).

The orchestrator manipulates agents only through the `BaseAgent` contract
(readiness probe, execute, rollback), so agent behaviour is a parameter of the
embedding: `μ` is the metrics-map type carried by results and by the shared
context, `ρ` the rollback-snapshot type.
-/

/-- Category of an agent name: in the source
`name.replace("-", "_").split("_")[0]`; replacing every "-" by "_" and taking
the head of the "_"-split is the same as taking the characters up to the
first '-' or '_'. -/
def agentCategory (name : String) : String :=
  String.mk (name.toList.takeWhile (fun c => c != '-' && c != '_'))

/-- Priority rank of an agent name under a priority chain:
`priority_chain.get(category, 999)`. -/
def agentRank (chain : List (String × Nat)) (name : String) : Nat :=
  (dictGet chain (agentCategory name)).getD 999

/-- Behavioural interface of a `BaseAgent` as consumed by the orchestrator:
the readiness probe's verdict, execution against the shared context, and the
rollback operation. -/
structure AgentImpl (μ ρ : Type) where
  name : String
  validateOk : Bool
  exec : List (String × μ) → DeploymentResult μ ρ
  rollbackFn : Option ρ → Bool

/-- The registry keys of `_initialize_agents` (the `agent_classes` table). -/
def agentRegistryNames : List String :=
  ["security-auditor", "performance-engineer", "test-automator", "database-optimizer"]

/-- Embedding of `CriticalWorkflowOrchestrator._initialize_agents`: configured
names found in the registry are instantiated into the agents dict in input
order; unknown names are logged and skipped (not an error).  The constructor
table's behaviour is abstracted by `mk`. -/
def initializeAgents {μ ρ : Type} (mk : String → AgentImpl μ ρ) (names : List String) :
    List (String × AgentImpl μ ρ) :=
  names.foldl (fun d n => if n ∈ agentRegistryNames then dictInsert d n (mk n) else d) []

/-- Stable insertion of an agent entry before the first entry of strictly
greater rank (helper for the priority sort). -/
def insertByRank {μ ρ : Type} (chain : List (String × Nat)) (x : String × AgentImpl μ ρ) :
    List (String × AgentImpl μ ρ) → List (String × AgentImpl μ ρ)
  | [] => [x]
  | y :: rest =>
    if agentRank chain x.2.name ≤ agentRank chain y.2.name then x :: y :: rest
    else y :: insertByRank chain x rest

/-- Embedding of the priority sort in `deploy`: Python's stable `sorted` with
key `self.config.priority_chain.get(category(agent.name), 999)`, realized as
the stable insertion sort (stable sorts under the same key agree on every
input). -/
def sortAgentsByPriority {μ ρ : Type} (chain : List (String × Nat))
    (l : List (String × AgentImpl μ ρ)) : List (String × AgentImpl μ ρ) :=
  l.foldr (insertByRank chain) []

/-- Outcome of one pass of the run loop: the deployment status, the results in
execution order, and the log of rollback invocations (owning agent and the
rollback data passed to it), in call order. -/
structure LoopOut (μ ρ : Type) where
  status : String
  results : List (DeploymentResult μ ρ)
  rollback_log : List (String × Option ρ)
  deriving DecidableEq, Repr

/-- Embedding of `_perform_rollback`: walk the recorded results in reverse
execution order; for each, look the owning agent up in the agents dict and
invoke its rollback with that result's own `rollback_data` (results whose
agent is absent from the dict are skipped).  The returned list logs each
invocation; per-invocation success is logged, never escalated, in the source,
so it does not appear in the log. -/
def performRollback {μ ρ : Type} (agentsDict : List (String × AgentImpl μ ρ))
    (results : List (DeploymentResult μ ρ)) : List (String × Option ρ) :=
  results.reverse.filterMap
    (fun r => (dictGet agentsDict r.agent).map (fun _ => (r.agent, r.rollback_data)))

/-- The `for agent_name, agent in sorted_agents` run loop of `deploy`: execute
each agent in order and append its result (the pre-execution checkpoint is
modelled separately — it does not influence control flow).  On `FAILED`: mark
the deployment failed, perform rollback and mark it rolled back when
`rollback_enabled`, and break.  On `PASSED`: merge the metrics into the shared
context under the agent's namespaced key.  Other statuses leave both the
context and the running status untouched. -/
def deployLoop {μ ρ : Type} (rollback_enabled : Bool)
    (agentsDict : List (String × AgentImpl μ ρ)) :
    List (String × AgentImpl μ ρ) → List (String × μ) → List (DeploymentResult μ ρ) →
    LoopOut μ ρ
  | [], _, acc => { status := "success", results := acc, rollback_log := [] }
  | (agentName, a) :: rest, ctx, acc =>
    let r := a.exec ctx
    if r.status = .failed then
      if rollback_enabled then
        { status := "rolled_back", results := acc ++ [r],
          rollback_log := performRollback agentsDict (acc ++ [r]) }
      else
        { status := "failed", results := acc ++ [r], rollback_log := [] }
    else if r.status = .passed then
      deployLoop rollback_enabled agentsDict rest
        (dictInsert ctx (agentName ++ "_results") r.metrics) (acc ++ [r])
    else
      deployLoop rollback_enabled agentsDict rest ctx (acc ++ [r])

/-- Embedding of the report assembled by `_generate_report`, restricted to the
behaviourally relevant fields (the hash-derived deployment id and the
wall-clock timestamps are elided), extended with the rollback invocation log,
which the source records only through its logger. -/
structure DeployReport (μ ρ : Type) where
  status : String
  agent_results : List (DeploymentResult μ ρ)
  errors : List String
  warnings : List String
  success_rate : ℚ
  total_agents : Nat
  successful_agents : Nat
  rollback_log : List (String × Option ρ)
  deriving DecidableEq, Repr

/-- Embedding of `_generate_report`: aggregate the recorded results, pool
their errors and warnings, and compute the success rate
`successful / total * 100`, guarded to 0 when no agent reached a terminal
state. -/
def generateReport {μ ρ : Type} (status : String) (results : List (DeploymentResult μ ρ))
    (rollback_log : List (String × Option ρ)) : DeployReport μ ρ :=
  let total := results.length
  let successful := (results.filter (fun r => r.status = ValidationStatus.passed)).length
  { status := status
    agent_results := results
    errors := results.foldl (fun acc r => acc ++ r.errors) []
    warnings := results.foldl (fun acc r => acc ++ r.warnings) []
    success_rate := if 0 < total then (successful : ℚ) / (total : ℚ) * 100 else 0
    total_agents := total
    successful_agents := successful
    rollback_log := rollback_log }

/-- Result of `deploy`: a normal report, or the error-shaped outcome the
`except` clause returns when an exception escapes the run loop (in this model,
agent-validation failure), carrying the rollback invocations attempted on the
way out. -/
inductive DeployOutcome (μ ρ : Type) where
  | ok (r : DeployReport μ ρ)
  | err (msg : String) (rollback_log : List (String × Option ρ))
  deriving DecidableEq, Repr

/-- Embedding of `CriticalWorkflowOrchestrator.deploy`: initialize the agents
dict from the configuration, validate every agent (any refusal raises, which
the top-level `except` converts into the error outcome after attempting
rollback over the — still empty — results when enabled), sort by priority,
drive the run loop, and assemble the report. -/
def deploy {μ ρ : Type} (config : DeploymentConfig) (mk : String → AgentImpl μ ρ)
    (ctx0 : List (String × μ)) : DeployOutcome μ ρ :=
  let agentsDict := initializeAgents mk config.agents
  if agentsDict.all (fun p => p.2.validateOk) then
    let sortedAgents := sortAgentsByPriority config.priority_chain agentsDict
    let out := deployLoop config.rollback_enabled agentsDict sortedAgents ctx0 []
    .ok (generateReport out.status out.results out.rollback_log)
  else
    .err "agent validation failed"
      (if config.rollback_enabled then performRollback agentsDict [] else [])

/-!
Claim C1: priority ordering of the four reference agents.
-/

/-- An always-passing agent behaviour, modelling the scenario in which every
configured agent's execution passes. -/
def passingAgent (n : String) : AgentImpl Unit Unit :=
  { name := n
    validateOk := true
    exec := fun _ =>
      { agent := n, status := .passed, start_time := 0, end_time := some 0,
        metrics := (), errors := [], warnings := [], rollback_data := none }
    rollbackFn := fun _ => true }

/-- The priority chain named by claim C1. -/
def chainC1 : List (String × Nat) :=
  [("security", 1), ("performance", 2), ("testing", 3), ("database", 4)]

/-- Execution order recorded in the report's `agent_results` for a run of the
agents in `names` (in that configuration order) under `chainC1`, with every
execution passing. -/
def execOrderC1 (names : List String) : List String :=
  match deploy
      { agents := names, priority_chain := chainC1, validation_mode := "automated",
        rollback_enabled := true, max_retries := 3, timeout_seconds := 300,
        parallel_execution := false, checkpoints := [] }
      passingAgent [] with
  | .ok r => r.agent_results.map (fun res => res.agent)
  | .err _ _ => []

/-- C1 counterexample: with the four reference agents configured in their
documented order under `chainC1`, the recorded execution order is NOT the
claimed [security-auditor, performance-engineer, test-automator,
database-optimizer]: "test-automator" truncates to category "test", which is
absent from the chain (whose key is "testing"), so it ranks 999 and sorts
after database-optimizer (rank 4). -/
theorem deploy_priority_C1_counterexample :
    execOrderC1 agentRegistryNames
        ≠ ["security-auditor", "performance-engineer", "test-automator",
           "database-optimizer"]
      ∧ execOrderC1 agentRegistryNames
        = ["security-auditor", "performance-engineer", "database-optimizer",
           "test-automator"] := by
  constructor
  · decide
  · decide

/-- C1 (amended): for every input ordering of the four reference agents under
`priorityChain = {security:1, performance:2, testing:3, database:4}` with all
executions passing, the execution order recorded in the report is
[security-auditor, performance-engineer, database-optimizer, test-automator]:
ranks follow the chain entry of the name's segment before the first separator,
a missing category ("test" is not "testing") ranking 999 and thus last. -/
theorem deploy_priority_C1 (names : List String)
    (hperm : names.Perm agentRegistryNames) :
    execOrderC1 names
      = ["security-auditor", "performance-engineer", "database-optimizer",
         "test-automator"] := by
  have hmem : names ∈ agentRegistryNames.permutations' :=
    List.mem_permutations'.mpr hperm
  have h : ∀ l ∈ agentRegistryNames.permutations',
      execOrderC1 l
        = ["security-auditor", "performance-engineer", "database-optimizer",
           "test-automator"] := by decide
  exact h names hmem

/-- C1 witness: the amended ordering theorem at the fully reversed input
order. -/
theorem deploy_priority_C1_witness :
    execOrderC1 ["database-optimizer", "test-automator", "performance-engineer",
                 "security-auditor"]
      = ["security-auditor", "performance-engineer", "database-optimizer",
         "test-automator"] :=
  deploy_priority_C1
    ["database-optimizer", "test-automator", "performance-engineer", "security-auditor"]
    (by decide)

/-!
Claim C2: rollback order when the third of four agents fails.
-/

/-- C2 (amended): with rollback enabled and agents A, B, C, D executing in
that order, where A and B pass and C is the first to fail, exactly the results
of A, B and C are recorded (D never executes), the final status is
"rolled_back", and rollback is invoked in strict reverse execution order over
ALL recorded results — the failed C first (with whatever rollback data it
registered, possibly none), then B, then A — each invocation receiving that
agent's own rollback data. -/
theorem deploy_rollback_order_C2 {μ ρ : Type} (A B C D : AgentImpl μ ρ)
    (ctx0 : List (String × μ)) (rA rB rC : DeploymentResult μ ρ)
    (hA : A.exec ctx0 = rA) (hA1 : rA.status = .passed) (hA2 : rA.agent = A.name)
    (hB : B.exec (dictInsert ctx0 (A.name ++ "_results") rA.metrics) = rB)
    (hB1 : rB.status = .passed) (hB2 : rB.agent = B.name)
    (hC : C.exec (dictInsert (dictInsert ctx0 (A.name ++ "_results") rA.metrics)
            (B.name ++ "_results") rB.metrics) = rC)
    (hC1 : rC.status = .failed) (hC2 : rC.agent = C.name)
    (hBA : B.name ≠ A.name) (hCA : C.name ≠ A.name) (hCB : C.name ≠ B.name) :
    deployLoop true [(A.name, A), (B.name, B), (C.name, C), (D.name, D)]
        [(A.name, A), (B.name, B), (C.name, C), (D.name, D)] ctx0 []
      = { status := "rolled_back", results := [rA, rB, rC],
          rollback_log := [(C.name, rC.rollback_data), (B.name, rB.rollback_data),
                           (A.name, rA.rollback_data)] } := by
  simp [deployLoop, hA, hA1, hB, hB1, hC, hC1, performRollback, dictGet,
    hA2, hB2, hC2, hBA, hCA, hCB]

/-- Concrete result used by the C2 scenario agents. -/
def c2Res (n : String) (st : ValidationStatus) : DeploymentResult Unit Unit :=
  { agent := n, status := st, start_time := 0, end_time := some 0,
    metrics := (), errors := [], warnings := [], rollback_data := none }

/-- Concrete agent behaviour for the C2 scenario: always returns the given
terminal status and registers no rollback data. -/
def c2Agent (n : String) (st : ValidationStatus) : AgentImpl Unit Unit :=
  { name := n
    validateOk := true
    exec := fun _ => c2Res n st
    rollbackFn := fun _ => true }

/-- The four-agent dict of the C2 scenario: the third agent fails, none of the
agents registers rollback data. -/
def c2Dict : List (String × AgentImpl Unit Unit) :=
  [("agent-a", c2Agent "agent-a" .passed), ("agent-b", c2Agent "agent-b" .passed),
   ("agent-c", c2Agent "agent-c" .failed), ("agent-d", c2Agent "agent-d" .passed)]

/-- C2 counterexample: in the concrete A, B, C, D run in which C fails without
having registered any rollback data (every recorded result carries
`rollback_data = none`), the rollback log is [C, B, A] — the failed C IS
rolled back first — refuting the claimed log of B then A with the failed C
excluded. -/
theorem deploy_rollback_order_C2_counterexample :
    (deployLoop true c2Dict c2Dict [] []).status = "rolled_back"
      ∧ (deployLoop true c2Dict c2Dict [] []).results.map
          (fun r => r.rollback_data) = [none, none, none]
      ∧ (deployLoop true c2Dict c2Dict [] []).rollback_log
          = [("agent-c", (none : Option Unit)), ("agent-b", none), ("agent-a", none)] := by
  refine ⟨?_, ?_, ?_⟩ <;> decide

/-- C2 witness: the amended theorem instantiated at the concrete scenario
agents. -/
theorem deploy_rollback_order_C2_witness :
    deployLoop true
        [("agent-a", c2Agent "agent-a" .passed), ("agent-b", c2Agent "agent-b" .passed),
         ("agent-c", c2Agent "agent-c" .failed), ("agent-d", c2Agent "agent-d" .passed)]
        [("agent-a", c2Agent "agent-a" .passed), ("agent-b", c2Agent "agent-b" .passed),
         ("agent-c", c2Agent "agent-c" .failed), ("agent-d", c2Agent "agent-d" .passed)]
        [] []
      = { status := "rolled_back",
          results := [c2Res "agent-a" .passed, c2Res "agent-b" .passed,
                      c2Res "agent-c" .failed],
          rollback_log := [("agent-c", none), ("agent-b", none), ("agent-a", none)] } :=
  deploy_rollback_order_C2 (c2Agent "agent-a" .passed) (c2Agent "agent-b" .passed)
    (c2Agent "agent-c" .failed) (c2Agent "agent-d" .passed) []
    (c2Res "agent-a" .passed) (c2Res "agent-b" .passed) (c2Res "agent-c" .failed)
    rfl rfl rfl rfl rfl rfl rfl rfl rfl (by decide) (by decide) (by decide)

/-!
Claim C7: failure with rollback disabled.
-/

/-- With rollback disabled, the run loop never logs a rollback invocation, and
if any result it has recorded is failed, the final status is "failed". -/
theorem deployLoop_disabled {μ ρ : Type} (agentsDict : List (String × AgentImpl μ ρ))
    (l : List (String × AgentImpl μ ρ)) :
    ∀ (ctx : List (String × μ)) (acc : List (DeploymentResult μ ρ)),
      (∀ r ∈ acc, r.status ≠ .failed) →
      (deployLoop false agentsDict l ctx acc).rollback_log = []
      ∧ ((∃ r ∈ (deployLoop false agentsDict l ctx acc).results, r.status = .failed) →
          (deployLoop false agentsDict l ctx acc).status = "failed") := by
  induction l with
  | nil =>
    intro ctx acc hacc
    refine ⟨rfl, ?_⟩
    rintro ⟨r, hr, hst⟩
    exact absurd hst (hacc r hr)
  | cons p rest ih =>
    obtain ⟨n, a⟩ := p
    intro ctx acc hacc
    by_cases hf : (a.exec ctx).status = .failed
    · simp only [deployLoop, if_pos hf, if_neg (Bool.false_ne_true)]
      exact ⟨trivial, fun _ => trivial⟩
    · have hnext : ∀ r ∈ acc ++ [a.exec ctx], r.status ≠ .failed := by
        intro r hr
        rcases List.mem_append.mp hr with h | h
        · exact hacc r h
        · rw [List.mem_singleton.mp h]
          exact hf
      by_cases hp : (a.exec ctx).status = .passed
      · simp only [deployLoop, if_neg hf, if_pos hp]
        exact ih _ _ hnext
      · simp only [deployLoop, if_neg hf, if_neg hp]
        exact ih _ _ hnext

/-- C7: in every run whose configuration has rollback disabled and whose
report records some failed result, the final deployment status is "failed" and
no rollback invocation ever occurs. -/
theorem deploy_no_rollback_C7 {μ ρ : Type} (config : DeploymentConfig)
    (mk : String → AgentImpl μ ρ) (ctx0 : List (String × μ)) (rep : DeployReport μ ρ)
    (hrb : config.rollback_enabled = false)
    (hok : deploy config mk ctx0 = .ok rep)
    (hfail : ∃ r ∈ rep.agent_results, r.status = .failed) :
    rep.status = "failed" ∧ rep.rollback_log = [] := by
  unfold deploy at hok
  rw [hrb] at hok
  by_cases hv : (initializeAgents mk config.agents).all (fun p => p.2.validateOk) = true
  · rw [if_pos hv] at hok
    have hrep : rep
        = generateReport
            (deployLoop false (initializeAgents mk config.agents)
              (sortAgentsByPriority config.priority_chain (initializeAgents mk config.agents))
              ctx0 []).status
            (deployLoop false (initializeAgents mk config.agents)
              (sortAgentsByPriority config.priority_chain (initializeAgents mk config.agents))
              ctx0 []).results
            (deployLoop false (initializeAgents mk config.agents)
              (sortAgentsByPriority config.priority_chain (initializeAgents mk config.agents))
              ctx0 []).rollback_log := by
      cases hok
      rfl
    have hloop := deployLoop_disabled (initializeAgents mk config.agents)
      (sortAgentsByPriority config.priority_chain (initializeAgents mk config.agents))
      ctx0 [] (by intro r hr; cases hr)
    rw [hrep]
    refine ⟨?_, ?_⟩
    · apply hloop.2
      have : rep.agent_results
          = (deployLoop false (initializeAgents mk config.agents)
              (sortAgentsByPriority config.priority_chain (initializeAgents mk config.agents))
              ctx0 []).results := by
        rw [hrep]; rfl
      rw [this] at hfail
      exact hfail
    · exact hloop.1
  · rw [if_neg hv] at hok
    cases hok

/-- Always-failing agent behaviour for the C7 witness. -/
def failingAgent (n : String) : AgentImpl Unit Unit :=
  { name := n
    validateOk := true
    exec := fun _ =>
      { agent := n, status := .failed, start_time := 0, end_time := some 0,
        metrics := (), errors := ["simulated failure"], warnings := [],
        rollback_data := none }
    rollbackFn := fun _ => true }

/-- Configuration for the C7 witness: a single registered agent, rollback
disabled. -/
def c7Config : DeploymentConfig :=
  { agents := ["security-auditor"], priority_chain := defaultPriorityChain,
    validation_mode := "automated", rollback_enabled := false, max_retries := 3,
    timeout_seconds := 300, parallel_execution := false, checkpoints := [] }

/-- C7 witness: a run whose single agent fails under a rollback-disabled
configuration ends "failed" with an empty rollback log. -/
theorem deploy_no_rollback_C7_witness :
    ∃ rep : DeployReport Unit Unit, deploy c7Config failingAgent [] = .ok rep
      ∧ rep.status = "failed" ∧ rep.rollback_log = [] := by
  refine ⟨_, rfl, ?_⟩
  exact deploy_no_rollback_C7 c7Config failingAgent [] _ rfl rfl (by decide)

/-!
Claim C10: runs configured exclusively with unknown agent names.
-/

/-- C10: for every configuration whose (non-empty) agents list names only
agents absent from the registry, orchestrator construction skips every name
(the agents dict is empty), and `deploy` returns a normal report with status
"success", no agent results, and a success rate of 0 — the
`successful / total` division is guarded, so a run with zero terminal-state
agents never divides by zero. -/
theorem deploy_unknown_agents_C10 {μ ρ : Type} (config : DeploymentConfig)
    (mk : String → AgentImpl μ ρ) (ctx0 : List (String × μ))
    (_hne : config.agents ≠ [])
    (hunknown : ∀ n ∈ config.agents, n ∉ agentRegistryNames) :
    initializeAgents mk config.agents = []
    ∧ deploy config mk ctx0
        = .ok { status := "success", agent_results := [], errors := [], warnings := [],
                success_rate := 0, total_agents := 0, successful_agents := 0,
                rollback_log := [] } := by
  have hfold : ∀ (names : List String), (∀ n ∈ names, n ∉ agentRegistryNames) →
      names.foldl (fun d n => if n ∈ agentRegistryNames then dictInsert d n (mk n) else d)
        ([] : List (String × AgentImpl μ ρ)) = [] := by
    intro names
    induction names with
    | nil => intro _; rfl
    | cons n rest ih =>
      intro h
      simp only [List.foldl_cons]
      rw [if_neg (h n (List.mem_cons_self n rest))]
      exact ih (fun m hm => h m (List.mem_cons_of_mem n hm))
  have hinit : initializeAgents mk config.agents = [] := hfold config.agents hunknown
  refine ⟨hinit, ?_⟩
  unfold deploy
  rw [hinit]
  rfl

/-- Configuration for the C10 witness: a single unknown agent name. -/
def c10Config : DeploymentConfig :=
  { agents := ["nonexistent-agent"], priority_chain := defaultPriorityChain,
    validation_mode := "automated", rollback_enabled := true, max_retries := 3,
    timeout_seconds := 300, parallel_execution := false, checkpoints := [] }

/-- C10 witness: the theorem at a configuration naming only
"nonexistent-agent". -/
theorem deploy_unknown_agents_C10_witness :
    initializeAgents passingAgent c10Config.agents = []
    ∧ deploy c10Config passingAgent []
        = .ok { status := "success", agent_results := [], errors := [], warnings := [],
                success_rate := 0, total_agents := 0, successful_agents := 0,
                rollback_log := [] } :=
  deploy_unknown_agents_C10 c10Config passingAgent [] (by decide) (by decide)
